import Mathlib

/-!
Verification of the Game of Life engine in `gameOfLife.py`.

The program keeps the current generation's live cells in a hash set of
integer coordinate pairs, together with a scratch set for the next
generation and a generation counter.  The definitions below are a shallow
embedding of the class `gameOfLife`: Python `int` coordinates become `Int`,
the hash sets become lists of cells (with `List.insert` for `set.add`,
which adds an element only when absent), and the mutating loop of
`simulateGeneration` becomes a left fold over the live cells.
-/

/-- A cell is a pair of integer coordinates, as in the Python tuples. -/
abbrev Cell : Type := Int × Int

namespace gameOfLife

/-- `NEIGHBOUR_ADJUSTMENT`: the offset array used to find the neighbour
coordinates of any cell (index 4 is the null offset, giving the cell itself). -/
def NEIGHBOUR_ADJUSTMENT : List (Int × Int) :=
  [(-1, -1), (-1, 0), (-1, 1),
   ( 0, -1), ( 0, 0), ( 0, 1),
   ( 1, -1), ( 1, 0), ( 1, 1)]

/-- `SIZE_OF_DISPLAY_GRID`: size of the printed grid in standard output. -/
def SIZE_OF_DISPLAY_GRID : Nat := 20

/-- `SCREEN_WIDTH`: width of the GUI window in pixels. -/
def SCREEN_WIDTH : Int := 1900

/-- `SCREEN_HEIGHT`: height of the GUI window in pixels. -/
def SCREEN_HEIGHT : Int := 1000

/-- `CELL_PIXEL_SIZE`: side length of each displayed cell in pixels. -/
def CELL_PIXEL_SIZE : Int := 10

/-- The state held by a `gameOfLife` object: the live cells of the current
generation, the scratch set for the next generation, and the generation
counter (`curGenAliveCells`, `nextGenAliveCells`, `curGen` in the source). -/
structure GridState where
  curGenAliveCells : List Cell
  nextGenAliveCells : List Cell
  curGen : Nat

/-- `getNthNeighbour`: the nth neighbour of `cell`; `n = 4` returns the cell
itself since `NEIGHBOUR_ADJUSTMENT[4]` does no adjustment. -/
def getNthNeighbour (cell : Cell) (n : Nat) : Cell :=
  (cell.1 + (NEIGHBOUR_ADJUSTMENT.getD n (0, 0)).1,
   cell.2 + (NEIGHBOUR_ADJUSTMENT.getD n (0, 0)).2)

/-- `isWithinBounds`: whether both coordinates lie in the signed 64-bit
integer range. -/
def isWithinBounds (cell : Cell) : Bool :=
  decide (-(2 ^ 63) ≤ cell.1 ∧ cell.1 ≤ 2 ^ 63 - 1) &&
  decide (-(2 ^ 63) ≤ cell.2 ∧ cell.2 ≤ 2 ^ 63 - 1)

/-- `addAliveCell`: add `(x, y)` to the current generation's live set when it
is within bounds; otherwise do nothing. -/
def addAliveCell (g : GridState) (x y : Int) : GridState :=
  let cell : Cell := (x, y)
  if isWithinBounds cell then
    { g with curGenAliveCells := g.curGenAliveCells.insert cell }
  else
    g

/-- The inner counting loop of `simulateGeneration`: the number of indices
`x` into `NEIGHBOUR_ADJUSTMENT` whose neighbour of `curCell` is within
bounds, lies in the current live set `cur`, and differs from `curCell`. -/
def aliveNeighbours (cur : List Cell) (curCell : Cell) : Nat :=
  (List.range NEIGHBOUR_ADJUSTMENT.length).countP fun x =>
    isWithinBounds (getNthNeighbour curCell x) &&
    decide (getNthNeighbour curCell x ∈ cur) &&
    decide (getNthNeighbour curCell x ≠ curCell)

/-- The liveness condition of line 116 of the source: `curCell` is alive in
the current set with 2 to 3 alive neighbours, or has exactly 3 alive
neighbours. -/
def becomesAlive (cur : List Cell) (curCell : Cell) : Bool :=
  (decide (curCell ∈ cur) && decide (2 ≤ aliveNeighbours cur curCell) &&
    decide (aliveNeighbours cur curCell ≤ 3)) ||
  decide (aliveNeighbours cur curCell = 3)

/-- The body of the candidate loop of `simulateGeneration`: when `curCell`
is within bounds and not yet confirmed alive in `acc`, count its alive
neighbours in `cur` and add it to `acc` when the liveness condition holds. -/
def processCandidate (cur acc : List Cell) (curCell : Cell) : List Cell :=
  if isWithinBounds curCell = true ∧ curCell ∉ acc then
    if becomesAlive cur curCell = true then acc.insert curCell else acc
  else
    acc

/-- One iteration of the outer loop of `simulateGeneration`: process each of
the 9 neighbour offsets of one alive cell. -/
def processAliveCell (cur next : List Cell) (aliveCell : Cell) : List Cell :=
  (List.range NEIGHBOUR_ADJUSTMENT.length).foldl
    (fun acc i => processCandidate cur acc (getNthNeighbour aliveCell i)) next

/-- `simulateGeneration`: check each alive cell and its 8 neighbours,
collect the cells alive in the next generation, make them the new current
set, reset the scratch set, and increment the generation counter. -/
def simulateGeneration (g : GridState) : GridState :=
  let next := g.curGenAliveCells.foldl
    (processAliveCell g.curGenAliveCells) g.nextGenAliveCells
  { curGenAliveCells := next, nextGenAliveCells := [], curGen := g.curGen + 1 }

/-- `getCellScreenCoordinateX`: screen x-coordinate of a cell; `(0, 0)` is
placed at the center of the screen. -/
def getCellScreenCoordinateX (cell : Cell) : Int :=
  SCREEN_WIDTH / 2 + cell.1 * CELL_PIXEL_SIZE

/-- `getCellScreenCoordinateY`: screen y-coordinate of a cell. -/
def getCellScreenCoordinateY (cell : Cell) : Int :=
  SCREEN_HEIGHT / 2 + cell.2 * CELL_PIXEL_SIZE

/-- `cellIsOnScreen`: the bounding check of the renderer, with a margin of
one cell size around the window. -/
def cellIsOnScreen (cell : Cell) : Bool :=
  decide (-CELL_PIXEL_SIZE ≤ getCellScreenCoordinateX cell ∧
      getCellScreenCoordinateX cell ≤ SCREEN_WIDTH + CELL_PIXEL_SIZE) &&
  decide (-CELL_PIXEL_SIZE ≤ getCellScreenCoordinateY cell ∧
      getCellScreenCoordinateY cell ≤ SCREEN_HEIGHT + CELL_PIXEL_SIZE)

/-- `drawCells`: the cells actually painted by the render pass, namely the
live cells passing `cellIsOnScreen` (the fill, rectangle construction and
display flip are pure output and carry no further cell logic). -/
def drawCells (g : GridState) : List Cell :=
  g.curGenAliveCells.filter fun cell => cellIsOnScreen cell

/-- `printGrid`: the lines printed to standard output, as a list of strings:
a header with the generation number, then `SIZE_OF_DISPLAY_GRID` rows of
cell statuses, then a blank line. -/
def printGrid (g : GridState) : List String :=
  ("gen " ++ toString g.curGen) ::
    (((List.range SIZE_OF_DISPLAY_GRID).map fun (y : Nat) =>
      (List.range SIZE_OF_DISPLAY_GRID).foldl (fun (lineToPrint : String) (x : Nat) =>
        if ((x : Int) - (SIZE_OF_DISPLAY_GRID : Int) / 2,
            (y : Int) - (SIZE_OF_DISPLAY_GRID : Int) / 2) ∈ g.curGenAliveCells then
          lineToPrint ++ "1 "
        else
          lineToPrint ++ "0 ") "") ++ [""])

/-- The candidate cells examined by `simulateGeneration`: every live cell
together with its 8 neighbours (offset index 4 yields the live cell itself). -/
def isCandidate (cur : List Cell) (c : Cell) : Prop :=
  ∃ a ∈ cur, ∃ i < NEIGHBOUR_ADJUSTMENT.length, c = getNthNeighbour a i

/-- Specification-side rule, following the spec's words: a cell is alive in
the next generation iff it was alive with 2 or 3 live neighbours, or dead
with exactly 3 live neighbours. -/
def specBecomesAlive (cur : List Cell) (c : Cell) : Prop :=
  (c ∈ cur ∧ (aliveNeighbours cur c = 2 ∨ aliveNeighbours cur c = 3)) ∨
  (c ∉ cur ∧ aliveNeighbours cur c = 3)

/-- Specification-side reference step, following the spec's words: apply the
birth/survival rule to every in-range cell of the whole plane, with no
candidate-set optimisation. -/
def specNextLiveSet (cur : List Cell) : Set Cell :=
  {c | isWithinBounds c = true ∧ specBecomesAlive cur c}

/-- Specification-side notion, following the spec's words: the mapped square
region of a cell (side `CELL_PIXEL_SIZE`, top-left corner at the cell's
screen coordinates) lies entirely outside the surface bounds
`[0, SCREEN_WIDTH] × [0, SCREEN_HEIGHT]`. -/
def regionEntirelyOffScreen (cell : Cell) : Prop :=
  getCellScreenCoordinateX cell + CELL_PIXEL_SIZE < 0 ∨
  SCREEN_WIDTH < getCellScreenCoordinateX cell ∨
  getCellScreenCoordinateY cell + CELL_PIXEL_SIZE < 0 ∨
  SCREEN_HEIGHT < getCellScreenCoordinateY cell

instance (cell : Cell) : Decidable (regionEntirelyOffScreen cell) := by
  unfold regionEntirelyOffScreen
  infer_instance

/-- The state of a freshly constructed game: both cell sets empty,
generation 0. -/
def emptyStart : GridState :=
  { curGenAliveCells := [], nextGenAliveCells := [], curGen := 0 }

/-- The horizontal blinker of the spec, at generation 0. -/
def blinkerStart : GridState :=
  { curGenAliveCells := [(-1, 0), (0, 0), (1, 0)], nextGenAliveCells := [], curGen := 0 }

/-- The 2 by 2 still-life block of the spec, at generation 0. -/
def blockStart : GridState :=
  { curGenAliveCells := [(0, 0), (1, 0), (0, 1), (1, 1)], nextGenAliveCells := [], curGen := 0 }

end gameOfLife

namespace gameOfLife

/-- Membership after processing one candidate cell: a cell is in the result
iff it was already confirmed, or it is the candidate, in bounds, and the
liveness condition holds on the current set. -/
theorem mem_processCandidate (cur acc : List Cell) (d c : Cell) :
    c ∈ processCandidate cur acc d ↔
      c ∈ acc ∨ (c = d ∧ isWithinBounds d = true ∧ becomesAlive cur d = true) := by
  unfold processCandidate
  split_ifs with h1 h2
  · simp only [List.mem_insert_iff]
    constructor
    · rintro (rfl | h)
      · exact Or.inr ⟨rfl, h1.1, h2⟩
      · exact Or.inl h
    · rintro (h | ⟨rfl, -, -⟩)
      · exact Or.inr h
      · exact Or.inl rfl
  · constructor
    · exact Or.inl
    · rintro (h | ⟨rfl, -, hb⟩)
      · exact h
      · exact absurd hb h2
  · constructor
    · exact Or.inl
    · rintro (h | ⟨rfl, hw, -⟩)
      · exact h
      · rcases not_and_or.mp h1 with h | h
        · exact absurd hw h
        · exact not_not.mp h

/-- Membership after folding `processCandidate` over any list of candidate
cells. -/
theorem mem_foldl_processCandidate (cur ds next : List Cell) (c : Cell) :
    c ∈ ds.foldl (processCandidate cur) next ↔
      c ∈ next ∨ (c ∈ ds ∧ isWithinBounds c = true ∧ becomesAlive cur c = true) := by
  induction ds generalizing next with
  | nil => simp
  | cons d ds ih =>
    rw [List.foldl_cons, ih, mem_processCandidate]
    constructor
    · rintro ((h | ⟨rfl, hw, hb⟩) | ⟨hd, hw, hb⟩)
      · exact Or.inl h
      · exact Or.inr ⟨List.mem_cons_self _ _, hw, hb⟩
      · exact Or.inr ⟨List.mem_cons_of_mem _ hd, hw, hb⟩
    · rintro (h | ⟨hd, hw, hb⟩)
      · exact Or.inl (Or.inl h)
      · rcases List.mem_cons.mp hd with rfl | hd
        · exact Or.inl (Or.inr ⟨rfl, hw, hb⟩)
        · exact Or.inr ⟨hd, hw, hb⟩

/-- Membership after processing all 9 offsets of one alive cell. -/
theorem mem_processAliveCell (cur next : List Cell) (a c : Cell) :
    c ∈ processAliveCell cur next a ↔
      c ∈ next ∨ ((∃ i < NEIGHBOUR_ADJUSTMENT.length, c = getNthNeighbour a i) ∧
        isWithinBounds c = true ∧ becomesAlive cur c = true) := by
  unfold processAliveCell
  rw [← List.foldl_map, mem_foldl_processCandidate]
  simp only [List.mem_map, List.mem_range]
  constructor
  · rintro (h | ⟨⟨i, hi, h⟩, hw, hb⟩)
    · exact Or.inl h
    · exact Or.inr ⟨⟨i, hi, h.symm⟩, hw, hb⟩
  · rintro (h | ⟨⟨i, hi, h⟩, hw, hb⟩)
    · exact Or.inl h
    · exact Or.inr ⟨⟨i, hi, h.symm⟩, hw, hb⟩

/-- Membership after folding the per-alive-cell loop over any list of alive
cells. -/
theorem mem_foldl_processAliveCell (cur as next : List Cell) (c : Cell) :
    c ∈ as.foldl (processAliveCell cur) next ↔
      c ∈ next ∨ ((∃ a ∈ as, ∃ i < NEIGHBOUR_ADJUSTMENT.length, c = getNthNeighbour a i) ∧
        isWithinBounds c = true ∧ becomesAlive cur c = true) := by
  induction as generalizing next with
  | nil => simp
  | cons a as ih =>
    rw [List.foldl_cons, ih, mem_processAliveCell]
    constructor
    · rintro ((h | ⟨hi, hw, hb⟩) | ⟨⟨a2, ha2, hi⟩, hw, hb⟩)
      · exact Or.inl h
      · exact Or.inr ⟨⟨a, List.mem_cons_self _ _, hi⟩, hw, hb⟩
      · exact Or.inr ⟨⟨a2, List.mem_cons_of_mem _ ha2, hi⟩, hw, hb⟩
    · rintro (h | ⟨⟨a2, ha2, hi⟩, hw, hb⟩)
      · exact Or.inl (Or.inl h)
      · rcases List.mem_cons.mp ha2 with rfl | ha2
        · exact Or.inl (Or.inr ⟨hi, hw, hb⟩)
        · exact Or.inr ⟨⟨a2, ha2, hi⟩, hw, hb⟩

/-- Characterisation of one step: a cell is live after `simulateGeneration`
iff it was already in the scratch set, or it is an in-bounds candidate on
which the liveness condition of line 116 holds. -/
theorem mem_simulateGeneration (g : GridState) (c : Cell) :
    c ∈ (simulateGeneration g).curGenAliveCells ↔
      c ∈ g.nextGenAliveCells ∨
        (isCandidate g.curGenAliveCells c ∧ isWithinBounds c = true ∧
          becomesAlive g.curGenAliveCells c = true) := by
  unfold simulateGeneration isCandidate
  exact mem_foldl_processAliveCell _ _ _ _

/-- The liveness condition of line 116, restated as the classical birth and
survival rule. -/
theorem becomesAlive_iff (cur : List Cell) (c : Cell) :
    becomesAlive cur c = true ↔
      ((c ∈ cur ∧ (aliveNeighbours cur c = 2 ∨ aliveNeighbours cur c = 3)) ∨
       (c ∉ cur ∧ aliveNeighbours cur c = 3)) := by
  unfold becomesAlive
  by_cases h : c ∈ cur
  · simp [h]
    omega
  · simp [h]

/-- Offset index 4 is the null offset: the 4th neighbour of a cell is the
cell itself. -/
theorem getNthNeighbour_four (c : Cell) : getNthNeighbour c 4 = c := by
  obtain ⟨cx, cy⟩ := c
  simp [getNthNeighbour, NEIGHBOUR_ADJUSTMENT]

/-- Each neighbour offset has its inverse at index `8 - x`: being a
neighbour is symmetric. -/
theorem getNthNeighbour_inv (c : Cell) (x : Nat)
    (hx : x < NEIGHBOUR_ADJUSTMENT.length) :
    getNthNeighbour (getNthNeighbour c x) (8 - x) = c := by
  obtain ⟨cx, cy⟩ := c
  simp only [NEIGHBOUR_ADJUSTMENT, List.length_cons, List.length_nil] at hx
  interval_cases x <;>
    simp [getNthNeighbour, NEIGHBOUR_ADJUSTMENT, Prod.mk.injEq]

/-- Any cell satisfying the liveness condition is a candidate: either it is
itself live (offset 4), or one of its live neighbours reaches it through
the inverse offset. -/
theorem isCandidate_of_becomesAlive (cur : List Cell) (c : Cell)
    (h : becomesAlive cur c = true) : isCandidate cur c := by
  have hor : c ∈ cur ∨ 0 < aliveNeighbours cur c := by
    rcases (becomesAlive_iff cur c).mp h with ⟨hc, -⟩ | ⟨-, h3⟩
    · exact Or.inl hc
    · exact Or.inr (by omega)
  rcases hor with hc | hpos
  · exact ⟨c, hc, 4, by decide, (getNthNeighbour_four c).symm⟩
  · unfold aliveNeighbours at hpos
    rw [List.countP_pos_iff] at hpos
    obtain ⟨x, hx, hp⟩ := hpos
    rw [List.mem_range] at hx
    simp only [Bool.and_eq_true, decide_eq_true_eq] at hp
    obtain ⟨⟨-, hcm⟩, -⟩ := hp
    refine ⟨getNthNeighbour c x, hcm, 8 - x, ?_, (getNthNeighbour_inv c x ?_).symm⟩
    · simp only [NEIGHBOUR_ADJUSTMENT, List.length_cons, List.length_nil]
      omega
    · simpa [NEIGHBOUR_ADJUSTMENT] using hx

end gameOfLife

namespace gameOfLife

/-- C5: one `simulateGeneration` call increments the generation counter by
exactly 1, and n calls starting from any state at generation g reach
generation g + n, regardless of the live-set contents. -/
theorem generation_increments (g : GridState) (n : Nat) :
    (simulateGeneration g).curGen = g.curGen + 1 ∧
    (simulateGeneration^[n] g).curGen = g.curGen + n := by
  constructor
  · rfl
  · induction n generalizing g with
    | zero => simp
    | succ n ih =>
      rw [Function.iterate_succ_apply, ih (simulateGeneration g)]
      show g.curGen + 1 + n = g.curGen + (n + 1)
      omega

set_option maxRecDepth 40000 in
/-- C6: the horizontal blinker becomes the vertical line after one step and
returns to the horizontal line after a second step. -/
theorem blinker_oscillates :
    (simulateGeneration blinkerStart).curGenAliveCells.toFinset =
      ({(0, -1), (0, 0), (0, 1)} : Finset Cell) ∧
    (simulateGeneration (simulateGeneration blinkerStart)).curGenAliveCells.toFinset =
      ({(-1, 0), (0, 0), (1, 0)} : Finset Cell) := by
  decide

set_option maxRecDepth 40000 in
/-- C7: the 2 by 2 block is unchanged as a set by one step. -/
theorem block_still_life :
    (simulateGeneration blockStart).curGenAliveCells.toFinset =
      ({(0, 0), (1, 0), (0, 1), (1, 1)} : Finset Cell) := by
  decide

/-- C10: `addAliveCell` only affects the current live set: the generation
counter and the scratch set are unchanged for every argument, and inserting
an already-live cell leaves the live set unchanged. -/
theorem addAliveCell_frame (g : GridState) (x y : Int) :
    (addAliveCell g x y).curGen = g.curGen ∧
    (addAliveCell g x y).nextGenAliveCells = g.nextGenAliveCells ∧
    ((x, y) ∈ g.curGenAliveCells →
      (addAliveCell g x y).curGenAliveCells = g.curGenAliveCells) := by
  by_cases h : isWithinBounds (x, y) = true
  · refine ⟨by simp [addAliveCell, h], by simp [addAliveCell, h], fun hm => ?_⟩
    simp [addAliveCell, h, List.insert_of_mem hm]
  · exact ⟨by simp [addAliveCell, h], by simp [addAliveCell, h], fun _ => by simp [addAliveCell, h]⟩

/-- Witness for C10 at the blinker state and its live cell (0, 0). -/
theorem addAliveCell_frame_witness :
    (addAliveCell blinkerStart 0 0).curGen = blinkerStart.curGen ∧
    (addAliveCell blinkerStart 0 0).nextGenAliveCells = blinkerStart.nextGenAliveCells ∧
    (addAliveCell blinkerStart 0 0).curGenAliveCells = blinkerStart.curGenAliveCells :=
  ⟨(addAliveCell_frame blinkerStart 0 0).1,
   (addAliveCell_frame blinkerStart 0 0).2.1,
   (addAliveCell_frame blinkerStart 0 0).2.2 (by decide)⟩

/-- C3: `addAliveCell` inserts exactly the in-range cells: an in-range cell
is added to the live set, an out-of-range call leaves the whole state (in
particular the live set and its size) unchanged; `(2 ^ 63 - 1, 0)` is
retained while `(2 ^ 63, 0)` is rejected. -/
theorem addAliveCell_range_check (g : GridState) (x y : Int) :
    ((-(2 ^ 63) ≤ x ∧ x ≤ 2 ^ 63 - 1 ∧ -(2 ^ 63) ≤ y ∧ y ≤ 2 ^ 63 - 1) →
      (addAliveCell g x y).curGenAliveCells = g.curGenAliveCells.insert (x, y) ∧
      (x, y) ∈ (addAliveCell g x y).curGenAliveCells) ∧
    (¬(-(2 ^ 63) ≤ x ∧ x ≤ 2 ^ 63 - 1 ∧ -(2 ^ 63) ≤ y ∧ y ≤ 2 ^ 63 - 1) →
      addAliveCell g x y = g) ∧
    (2 ^ 63 - 1, 0) ∈ (addAliveCell g (2 ^ 63 - 1) 0).curGenAliveCells ∧
    addAliveCell g (2 ^ 63) 0 = g := by
  have hbig : isWithinBounds (9223372036854775807, 0) = true := by decide
  have hbig2 : isWithinBounds (9223372036854775808, 0) = false := by decide
  refine ⟨?_, ?_, ?_, ?_⟩
  · intro h
    have hw : isWithinBounds (x, y) = true := by
      simp only [isWithinBounds, Bool.and_eq_true, decide_eq_true_eq]
      exact ⟨⟨h.1, h.2.1⟩, h.2.2.1, h.2.2.2⟩
    refine ⟨by simp [addAliveCell, hw], ?_⟩
    simp [addAliveCell, hw, List.mem_insert_iff]
  · intro h
    have hw : ¬ isWithinBounds (x, y) = true := by
      simp only [isWithinBounds, Bool.and_eq_true, decide_eq_true_eq]
      tauto
    simp [addAliveCell, hw]
  · simp [addAliveCell, hbig, List.mem_insert_iff]
  · simp [addAliveCell, hbig2]

/-- Witness for C3 at the empty state: inserting (0, 0) succeeds and is a
member, (2 ^ 63 - 1, 0) is retained, and inserting (2 ^ 63, 0) is a no-op. -/
theorem addAliveCell_range_check_witness :
    ((addAliveCell emptyStart 0 0).curGenAliveCells =
        emptyStart.curGenAliveCells.insert (0, 0) ∧
      ((0 : Int), (0 : Int)) ∈ (addAliveCell emptyStart 0 0).curGenAliveCells) ∧
    (2 ^ 63 - 1, 0) ∈ (addAliveCell emptyStart (2 ^ 63 - 1) 0).curGenAliveCells ∧
    addAliveCell emptyStart (2 ^ 63) 0 = emptyStart :=
  ⟨(addAliveCell_range_check emptyStart 0 0).1 (by decide),
   (addAliveCell_range_check emptyStart 0 0).2.2.1,
   (addAliveCell_range_check emptyStart (2 ^ 63) 0).2.2.2⟩

/-- C1: for every in-range candidate cell processed during a step (the
scratch set starting empty, as in the program), the cell is live in the
next generation iff it was live with an in-range live-neighbour count of 2
or 3, or dead with a count of exactly 3. -/
theorem candidate_rule_applied (g : GridState) (c : Cell)
    (hnext : g.nextGenAliveCells = [])
    (hcand : isCandidate g.curGenAliveCells c)
    (hwb : isWithinBounds c = true) :
    (c ∈ (simulateGeneration g).curGenAliveCells ↔
      ((c ∈ g.curGenAliveCells ∧
          (aliveNeighbours g.curGenAliveCells c = 2 ∨
           aliveNeighbours g.curGenAliveCells c = 3)) ∨
       (c ∉ g.curGenAliveCells ∧ aliveNeighbours g.curGenAliveCells c = 3))) := by
  rw [mem_simulateGeneration, hnext, ← becomesAlive_iff]
  simp only [List.not_mem_nil, false_or]
  constructor
  · rintro ⟨-, -, hb⟩
    exact hb
  · intro hb
    exact ⟨hcand, hwb, hb⟩

set_option maxRecDepth 40000 in
/-- Witness for C1 at the blinker state and candidate cell (0, 0). -/
theorem candidate_rule_applied_witness :
    (((0 : Int), (0 : Int)) ∈ (simulateGeneration blinkerStart).curGenAliveCells ↔
      ((((0 : Int), (0 : Int)) ∈ blinkerStart.curGenAliveCells ∧
          (aliveNeighbours blinkerStart.curGenAliveCells (0, 0) = 2 ∨
           aliveNeighbours blinkerStart.curGenAliveCells (0, 0) = 3)) ∨
       (((0 : Int), (0 : Int)) ∉ blinkerStart.curGenAliveCells ∧
          aliveNeighbours blinkerStart.curGenAliveCells (0, 0) = 3))) :=
  candidate_rule_applied blinkerStart (0, 0) rfl
    ⟨(0, 0), by decide, 4, by decide, by decide⟩ (by decide)

/-- C2: the candidate-set step computes exactly the whole-plane reference
step of the spec, and stepping the empty live set yields the empty live
set. -/
theorem step_refines_plane_rule (g : GridState)
    (hnext : g.nextGenAliveCells = []) :
    {c : Cell | c ∈ (simulateGeneration g).curGenAliveCells} =
      specNextLiveSet g.curGenAliveCells ∧
    (simulateGeneration emptyStart).curGenAliveCells = [] := by
  refine ⟨?_, rfl⟩
  ext c
  simp only [Set.mem_setOf_eq, specNextLiveSet, specBecomesAlive]
  rw [mem_simulateGeneration, hnext]
  simp only [List.not_mem_nil, false_or]
  constructor
  · rintro ⟨-, hw, hb⟩
    exact ⟨hw, (becomesAlive_iff _ _).mp hb⟩
  · rintro ⟨hw, hs⟩
    have hb := (becomesAlive_iff g.curGenAliveCells c).mpr hs
    exact ⟨isCandidate_of_becomesAlive _ _ hb, hw, hb⟩

/-- Witness for C2 at the empty state. -/
theorem step_refines_plane_rule_witness :
    {c : Cell | c ∈ (simulateGeneration emptyStart).curGenAliveCells} =
      specNextLiveSet emptyStart.curGenAliveCells ∧
    (simulateGeneration emptyStart).curGenAliveCells = [] :=
  step_refines_plane_rule emptyStart rfl

/-- C4: stepping preserves the coordinate range with no wraparound: when the
live cells are all in range, every cell of the stepped live set is within
the 64-bit range, and out-of-range cells contribute nothing to the
neighbour count of a processed cell. -/
theorem step_preserves_range (g : GridState) (c : Cell)
    (hnext : g.nextGenAliveCells = [])
    (hin : ∀ a ∈ g.curGenAliveCells, isWithinBounds a = true)
    (hc : c ∈ (simulateGeneration g).curGenAliveCells) :
    isWithinBounds c = true ∧
    aliveNeighbours g.curGenAliveCells c =
      aliveNeighbours (g.curGenAliveCells.filter fun n => isWithinBounds n) c := by
  constructor
  · rw [mem_simulateGeneration, hnext] at hc
    simp only [List.not_mem_nil, false_or] at hc
    exact hc.2.1
  · unfold aliveNeighbours
    rw [List.countP_eq_length_filter, List.countP_eq_length_filter]
    congr 1
    apply List.filter_congr
    intro x hx
    by_cases hw : isWithinBounds (getNthNeighbour c x) = true
    · simp [hw, List.mem_filter]
    · simp only [Bool.not_eq_true] at hw
      simp [hw]

set_option maxRecDepth 40000 in
/-- Witness for C4 at the blinker state and stepped cell (0, 0). -/
theorem step_preserves_range_witness :
    isWithinBounds ((0 : Int), (0 : Int)) = true ∧
    aliveNeighbours blinkerStart.curGenAliveCells (0, 0) =
      aliveNeighbours (blinkerStart.curGenAliveCells.filter fun n => isWithinBounds n) (0, 0) :=
  step_preserves_range blinkerStart (0, 0) rfl (by decide) (by decide)

/-- Appending one token at a time to a string accumulates the concatenation
of the tokens' characters. -/
theorem data_foldl_append (f : Nat → String) (xs : List Nat) (s : String) :
    (xs.foldl (fun acc x => acc ++ f x) s).data =
      s.data ++ (xs.map fun x => (f x).data).flatten := by
  induction xs generalizing s with
  | nil => simp
  | cons x xs ih => simp [ih, String.data_append, List.append_assoc]

/-- C8: the text snapshot is a header line with the current generation,
followed by exactly 20 rows, followed by a trailing blank line (22 lines in
all); row y consists of the 20 tokens for the window cells
(x - 10, y - 10), x = 0..19: "1" with a separating space when the cell is
live at call time, "0" otherwise. -/
theorem printGrid_snapshot (g : GridState) (y : Nat) (hy : y < 20) :
    (printGrid g).length = 22 ∧
    (printGrid g).head? = some ("gen " ++ toString g.curGen) ∧
    (printGrid g).getLast? = some "" ∧
    ((printGrid g).getD (y + 1) "").data =
      ((List.range 20).map fun (x : Nat) =>
        if ((x : Int) - 10, (y : Int) - 10) ∈ g.curGenAliveCells then ['1', ' ']
        else ['0', ' ']).flatten := by
  have hlen : ∀ ls : List String, ls.length = 20 →
      (ls ++ [""]).getD y "" = ls.getD y "" := by
    intro ls hl
    exact List.getD_append _ _ _ _ (by omega)
  have hget : ∀ f2 : Nat → String,
      ((List.range SIZE_OF_DISPLAY_GRID).map f2).getD y "" = f2 y := by
    intro f2
    rw [List.getD_eq_getElem?_getD, List.getElem?_map,
      List.getElem?_range (show y < SIZE_OF_DISPLAY_GRID from hy)]
    rfl
  refine ⟨?_, rfl, ?_, ?_⟩
  · rw [printGrid, List.length_cons, List.length_append, List.length_map, List.length_range]
    rfl
  · rw [printGrid, ← List.cons_append]
    exact List.getLast?_concat _
  · rw [printGrid, List.getD_cons_succ,
      hlen _ (by rw [List.length_map, List.length_range]; rfl), hget]
    have hbody : (fun (lineToPrint : String) (x : Nat) =>
        if ((x : Int) - (SIZE_OF_DISPLAY_GRID : Int) / 2,
            (y : Int) - (SIZE_OF_DISPLAY_GRID : Int) / 2) ∈ g.curGenAliveCells then
          lineToPrint ++ "1 "
        else
          lineToPrint ++ "0 ") =
        fun (acc : String) (x : Nat) => acc ++
          (if ((x : Int) - 10, (y : Int) - 10) ∈ g.curGenAliveCells then "1 " else "0 ") := by
      funext acc x
      norm_num [SIZE_OF_DISPLAY_GRID]
      split_ifs <;> rfl
    rw [hbody, data_foldl_append]
    have hnil : ("" : String).data = [] := rfl
    rw [hnil, List.nil_append]
    congr 1
    rw [show List.range SIZE_OF_DISPLAY_GRID = List.range 20 from rfl]
    congr 1
    funext x
    split_ifs <;> rfl

/-- Witness for C8 at the blinker state and row 10 (the row through the live
cells). -/
theorem printGrid_snapshot_witness :
    (printGrid blinkerStart).length = 22 ∧
    (printGrid blinkerStart).head? = some ("gen " ++ toString blinkerStart.curGen) ∧
    (printGrid blinkerStart).getLast? = some "" ∧
    ((printGrid blinkerStart).getD (10 + 1) "").data =
      ((List.range 20).map fun (x : Nat) =>
        if ((x : Int) - 10, ((10 : Nat) : Int) - 10) ∈ blinkerStart.curGenAliveCells then
          ['1', ' ']
        else ['0', ' ']).flatten :=
  printGrid_snapshot blinkerStart 10 (by decide)

/-- C9 counterexample: the live cell (96, 0) maps to screen x-coordinate
1910, so its 10-pixel square region lies entirely outside the 1900-wide
surface, yet the render pass draws it (the bounding check allows a margin
of one cell size). -/
theorem offscreen_cell_drawn :
    regionEntirelyOffScreen (96, 0) ∧
    (96, 0) ∈ drawCells
      { curGenAliveCells := [(96, 0)], nextGenAliveCells := [], curGen := 0 } :=
  ⟨by decide, by decide⟩

/-- C9 (amended): every live cell is mapped to the screen position
W / 2 + x * px and H / 2 + y * px with truncating division, and every live
cell skipped by the render pass has its mapped square region entirely
outside the surface bounds (cells entirely outside but within one cell size
of the border may still be drawn). -/
theorem drawCells_mapping_and_skip (g : GridState) (cell : Cell)
    (h : cell ∈ g.curGenAliveCells) :
    getCellScreenCoordinateX cell = SCREEN_WIDTH / 2 + cell.1 * CELL_PIXEL_SIZE ∧
    getCellScreenCoordinateY cell = SCREEN_HEIGHT / 2 + cell.2 * CELL_PIXEL_SIZE ∧
    (cell ∉ drawCells g → regionEntirelyOffScreen cell) := by
  refine ⟨rfl, rfl, fun hnd => ?_⟩
  have hoff : ¬ cellIsOnScreen cell = true := fun hon =>
    hnd (List.mem_filter.mpr ⟨h, hon⟩)
  unfold cellIsOnScreen at hoff
  unfold regionEntirelyOffScreen
  simp only [Bool.and_eq_true, decide_eq_true_eq, not_and_or, not_le] at hoff
  simp only [CELL_PIXEL_SIZE, SCREEN_WIDTH, SCREEN_HEIGHT] at hoff ⊢
  omega

/-- Witness for C9 (amended) at the blinker state and its live cell (0, 0). -/
theorem drawCells_mapping_and_skip_witness :
    getCellScreenCoordinateX (0, 0) = SCREEN_WIDTH / 2 + (0 : Int) * CELL_PIXEL_SIZE ∧
    getCellScreenCoordinateY (0, 0) = SCREEN_HEIGHT / 2 + (0 : Int) * CELL_PIXEL_SIZE ∧
    (((0 : Int), (0 : Int)) ∉ drawCells blinkerStart → regionEntirelyOffScreen (0, 0)) :=
  drawCells_mapping_and_skip blinkerStart (0, 0) (by decide)

end gameOfLife
